import Mathlib

/-!
Shallow embedding of `IPython/config/application.py` (class `Application`),
together with theorems checking the natural-language specification of that
file against the code.

The embedding models:
- nested configuration objects (`CVal`, `Config`) with the recursive merge
  described by the spec (the `Config._merge` implementation lives in
  `IPython/config/loader.py`, outside the given sources, so merge is
  modelled from the spec);
- the `Application` state (trait attributes, class registry, alias and flag
  tables, logger) as a structure `AppState`;
- construction (`app_init`, mirroring `Application.__init__`), logging
  initialisation, the `_log_level_changed` notification, help rendering
  (`print_flag_help`, `print_alias_help`, `print_help`), `update_config`
  and `parse_command_line`.

Printing is modelled as returning the list of printed lines; `sys.exit(1)`
is modelled by the `ParseResult.exited` constructor carrying the exit
status, the printed output and the state at exit; Python exceptions
(KeyError, ValueError, AssertionError) are modelled with `Except`.
-/

/-- Values stored in a configuration object: either an atomic value
(abstracted as a string) or a nested sub-configuration given as an ordered
association list. Mirrors the nested mergeable mapping of
`IPython.config.loader.Config`. -/
inductive CVal where
  | atom (s : String)
  | table (entries : List (String × CVal))
deriving Repr

/-- A configuration object: an ordered association list from keys to
configuration values. -/
abbrev Config := List (String × CVal)

/-- Look a key up in a configuration table (first binding wins, as in a
Python dict where keys are unique). -/
def lookupEntry (k : String) : List (String × CVal) → Option CVal
  | [] => none
  | (k', v) :: rest => if k' = k then some v else lookupEntry k rest

/-- Replace the binding of a key, or append it if absent (Python dict
assignment `d[k] = v`). -/
def setEntry (k : String) (v : CVal) : List (String × CVal) → List (String × CVal)
  | [] => [(k, v)]
  | (k', v') :: rest => if k' = k then (k', v) :: rest else (k', v') :: setEntry k v rest

/-- Modelled from the spec: the in-place recursive merge of configuration
objects (`Config._merge`, defined in `IPython/config/loader.py`, which is
not among the given sources). New keys and values overwrite or are added;
when both sides hold a nested section under the same key the sections are
merged recursively, preserving structure. -/
def mergeTables : List (String × CVal) → List (String × CVal) → List (String × CVal)
  | old, [] => old
  | old, (k, CVal.atom s) :: rest => mergeTables (setEntry k (CVal.atom s) old) rest
  | old, (k, CVal.table b) :: rest =>
    match lookupEntry k old with
    | some (CVal.table a) =>
        mergeTables (setEntry k (CVal.table (mergeTables a b)) old) rest
    | _ => mergeTables (setEntry k (CVal.table b) old) rest
termination_by old l => sizeOf l
decreasing_by
  all_goals simp_wf
  all_goals omega

/-- Python's `copy.deepcopy` on a configuration object: in a pure
embedding a deep copy is the value itself. -/
def deepcopy (c : Config) : Config := c

/-- Metadata of a declared trait on a configurable class: its type name
(the trait class's name), whether it is configurable (`config=True`), and
its help text (empty string when absent). -/
structure TraitInfo where
  typeName : String
  configurable : Bool
  help : String
deriving Repr

/-- A configurable class as seen by the Application: its `__name__`, its
declared traits, and the lines printed by its own `class_print_help`
renderer (modelled from the spec: `class_print_help` is defined in
`IPython/config/configurable.py`, outside the given sources, and is
consumed as a black box). -/
structure AppClass where
  name : String
  traits : List (String × TraitInfo)
  helpLines : List String
deriving Repr

/-- The application's logger (the `logging` module is an external
collaborator; only the pieces touched by the code are modelled: the logger
name, its level, and the formats of its attached handlers). -/
structure Logger where
  name : String
  level : Nat
  handlerFormats : List String
deriving Repr

/-- A Python value as it may appear inside a flag-table tuple: a
dict/Config mapping, a string, or an integer (standing for any
non-mapping, non-string value). -/
inductive PyVal where
  | pdict (c : Config)
  | pstr (s : String)
  | pint (n : Int)
deriving Repr

/-- The state of an `Application` instance: its trait attributes, class
registry, alias and flag tables, merged configuration and logger. Flag
table values are Python tuples, modelled as lists of `PyVal`. -/
structure AppState where
  app_name : String
  description : String
  flag_description : String
  alias_description : String
  keyvalue_description : String
  classes : List AppClass
  version : String
  log_level : Nat
  aliases : List (String × String)
  flags : List (String × List PyVal)
  config : Config
  log : Logger

/-- Python `isinstance(v, (dict, Config))`: is the value a mapping or
configuration object. -/
def isMapping : PyVal → Bool
  | .pdict _ => true
  | _ => false

/-- Python `isinstance(v, basestring)`: is the value a string. -/
def isStr : PyVal → Bool
  | .pstr _ => true
  | _ => false

/-- The three assertions of `Application.__init__` (lines 110-112) on one
flag-table value: `len(value) == 2`, `isinstance(value[0], (dict, Config))`
and `isinstance(value[1], basestring)`. -/
def flagOk : List PyVal → Bool
  | [v0, v1] => isMapping v0 && isStr v1
  | _ => false

/-- The validation loop of `Application.__init__` (lines 109-112): iterate
over the flag table; the first entry failing an assertion aborts
construction with an assertion error whose message `"Bad flag: %r:%s"`
carries the offending key and value (the error payload here). -/
def validate_flags : List (String × List PyVal) → Except (String × List PyVal) Unit
  | [] => .ok ()
  | (key, value) :: rest =>
    if flagOk value then validate_flags rest else .error (key, value)

/-- `Application.init_logging` (lines 115-127): create a logger named after
the application's concrete class, set its level to the current
`log_level`, and attach one stream handler with the fixed format. -/
def init_logging (st : AppState) (clsName : String) : AppState :=
  { st with log := { name := clsName, level := st.log_level,
                     handlerFormats := ["[%(name)s] %(message)s"] } }

/-- `Application.__init__` (lines 102-113): insert the instance's own class
at position 0 of `classes`, validate the flag table (assertion errors
abort construction), then initialise logging. -/
def app_init (cls : AppClass) (st0 : AppState) : Except (String × List PyVal) AppState :=
  match validate_flags st0.flags with
  | .error e => .error e
  | .ok _ => .ok (init_logging { st0 with classes := cls :: st0.classes } cls.name)

/-- `Application._log_level_changed` (lines 129-131): the change
notification handler adjusts the logger's level to the new value. -/
def log_level_changed (st : AppState) (new : Nat) : AppState :=
  { st with log := { st.log with level := new } }

/-- Modelled from the spec: the declarative attribute store (traitlets,
outside the given sources) validates an `Enum` trait value against the
fixed set 0,10,20,30,40,50 and, on a successful set, stores it and fires
the registered change-notification callback `_log_level_changed`. -/
def set_log_level (st : AppState) (v : Nat) : Except String AppState :=
  if v = 0 ∨ v = 10 ∨ v = 20 ∨ v = 30 ∨ v = 40 ∨ v = 50 then
    .ok (log_level_changed { st with log_level := v } v)
  else
    .error "TraitError"

/-- `Application.update_config` (lines 196-204): a copy of the current
config is taken and the new config is merged into the copy, but the
combined config is then discarded -- `self.config` is assigned the
incoming object directly. -/
def update_config (st : AppState) (config : Config) : AppState :=
  let newconfig := deepcopy st.config
  let _merged := mergeTables newconfig config
  { st with config := config }

/-- Python exceptions raised by the help-rendering and parsing paths:
`KeyError` (a lookup error) from dict subscripting, `ValueError` from
unpacking a sequence of the wrong length, `AttributeError` from calling a
string method on a non-string. -/
inductive PyErr where
  | keyError (k : String)
  | valueError (s : String)
  | attributeError (s : String)
deriving Repr

/-- Modelled from the spec: `IPython.utils.text.indent` (outside the given
sources) indents every line of the help text by a fixed margin. -/
def indent (s : String) : String :=
  String.intercalate "\n" ((s.splitOn "\n").map (fun line => "    " ++ line))

/-- Split a character list at its first dot: the characters before it and
the characters after it, or `none` when no dot occurs. -/
def splitAtFirstDot : List Char → Option (List Char × List Char)
  | [] => none
  | ch :: rest =>
    if ch = '.' then some ([], rest)
    else
      match splitAtFirstDot rest with
      | none => none
      | some (pre, post) => some (ch :: pre, post)

/-- Python `longname.split('.', 1)` followed by unpacking into two names:
`some (classname, traitname)` when the string contains a dot, `none`
(a ValueError in Python) otherwise. -/
def splitDot1 (s : String) : Option (String × String) :=
  match splitAtFirstDot s.toList with
  | none => none
  | some (pre, post) => some (pre.asString, post.asString)

/-- The `classdict` of `print_alias_help` (lines 143-145): a dict built by
assigning each registered class under its name, so for duplicate names the
last class wins; lookup returns `none` (a KeyError in Python) for an
unregistered name. -/
def classdictGet (classes : List AppClass) (name : String) : Option AppClass :=
  classes.reverse.find? (fun c => c.name == name)

/-- Modelled from the spec: `cls.class_traits(config=True)` (defined in
`IPython/config/configurable.py`, outside the given sources) returns the
class's configurable traits only. -/
def classTraitsConfig (c : AppClass) : List (String × TraitInfo) :=
  c.traits.filter (fun p => p.2.configurable)

/-- Dict lookup among a class's traits: `none` is a KeyError in Python. -/
def traitLookup (k : String) : List (String × TraitInfo) → Option TraitInfo
  | [] => none
  | (k', t) :: rest => if k' = k then some t else traitLookup k rest

/-- The body of the alias loop of `print_alias_help` (lines 147-155) for a
single alias: split the dotted target, look the class up in `classdict`,
fetch the trait from the class's configurable traits, then print
`<alias> (<target>) : <trait type>` and the indented help if present. -/
def alias_entry_lines (classes : List AppClass) (aliasName target : String) :
    Except PyErr (List String) :=
  match splitDot1 target with
  | none => .error (.valueError target)
  | some (classname, traitname) =>
    match classdictGet classes classname with
    | none => .error (.keyError classname)
    | some cls =>
      match traitLookup traitname (classTraitsConfig cls) with
      | none => .error (.keyError traitname)
      | some trait =>
        .ok ([aliasName ++ " (" ++ target ++ ") : " ++ trait.typeName] ++
          (if trait.help = "" then [] else [indent trait.help]))

/-- The alias loop of `print_alias_help`, in the table's own order. -/
def aliasEntriesLines (classes : List AppClass) :
    List (String × String) → Except PyErr (List String)
  | [] => .ok []
  | (a, t) :: rest => do
    let l ← alias_entry_lines classes a t
    let ls ← aliasEntriesLines classes rest
    .ok (l ++ ls)

/-- `Application.print_alias_help` (lines 133-156): nothing when the alias
table is empty; otherwise a header, the alias description, a blank line,
the per-alias lines in table order, and a trailing blank line. -/
def print_alias_help (st : AppState) : Except PyErr (List String) :=
  if st.aliases.isEmpty then .ok []
  else do
    let entries ← aliasEntriesLines st.classes st.aliases
    .ok (["Aliases", "-------", st.alias_description, ""] ++ entries ++ [""])

/-- The body of the flag loop of `print_flag_help` (lines 168-170) for a
single flag: unpack the value into `(cfg, help)` (a ValueError when the
tuple does not have two elements, an AttributeError when the help is not a
string), then print `--<name>` and the indented help. -/
def flagEntryLines : String × List PyVal → Except PyErr (List String)
  | (m, [_cfg, PyVal.pstr h]) => .ok ["--" ++ m, indent h]
  | (m, [_cfg, _]) => .error (.attributeError m)
  | (m, _) => .error (.valueError m)

/-- The flag loop of `print_flag_help`, in the table's own order. -/
def flagLinesAux : List (String × List PyVal) → Except PyErr (List String)
  | [] => .ok []
  | p :: rest => do
    let l ← flagEntryLines p
    let ls ← flagLinesAux rest
    .ok (l ++ ls)

/-- `Application.print_flag_help` (lines 158-171): nothing when the flag
table is empty; otherwise a header, the flag description, a blank line,
the per-flag lines in table order, and a trailing blank line. -/
def print_flag_help (st : AppState) : Except PyErr (List String) :=
  if st.flags.isEmpty then .ok []
  else do
    let entries ← flagLinesAux st.flags
    .ok (["Flags", "-----", st.flag_description, ""] ++ entries ++ [""])

/-- The lines the flag loop prints for one well-formed flag entry (used in
statements about validated flag tables): `--<name>` then the indented
help. -/
def flagPairLines (p : String × List PyVal) : List String :=
  ("--" ++ p.1) ::
    (match p.2 with
     | [_cfg, PyVal.pstr h] => [indent h]
     | _ => [])

/-- `Application.print_help` (lines 173-185): flag help, alias help, a
"Class parameters" section when the class registry is non-empty, then each
registered class's own help followed by a blank line. -/
def print_help (st : AppState) : Except PyErr (List String) := do
  let f ← print_flag_help st
  let a ← print_alias_help st
  let classSection := if st.classes.isEmpty then [] else
    ["Class parameters", "----------------", st.keyvalue_description, ""]
  .ok (f ++ a ++ classSection ++ st.classes.flatMap (fun c => c.helpLines ++ [""]))

/-- `Application.print_description` (lines 187-190). -/
def print_description (st : AppState) : List String :=
  [st.description, ""]

/-- `Application.print_version` (lines 192-194). -/
def print_version (st : AppState) : List String :=
  [st.version]

/-- Outcome of `parse_command_line`: either the process terminated via
`sys.exit` with an exit status, carrying the lines printed before exiting
and the application state at exit, or the call returned normally with the
updated state. -/
inductive ParseResult where
  | exited (status : Nat) (output : List String) (st : AppState)
  | finished (st : AppState)

/-- `Application.parse_command_line` (lines 206-222) on an explicit
argument list: if `-h` or `--help` occurs anywhere, print the description
and the full help and exit with status 1; otherwise if `--version`
occurs, print the version and exit with status 1; otherwise obtain a
config from the key-value loader (an external collaborator, passed here as
a function) and merge it in via `update_config`. -/
def parse_command_line (st : AppState) (loader : List String → Config)
    (argv : List String) : Except PyErr ParseResult :=
  if "-h" ∈ argv ∨ "--help" ∈ argv then
    match print_help st with
    | .error e => .error e
    | .ok h => .ok (.exited 1 (print_description st ++ h) st)
  else if "--version" ∈ argv then
    .ok (.exited 1 (print_version st) st)
  else
    .ok (.finished (update_config st (loader argv)))

/-- Does an alias target fail to resolve against a class registry: the
target splits into `classname.traitname`, and either the class name is not
registered or the trait is not configurable on the class. -/
def aliasTargetBad (classes : List AppClass) (target : String) : Bool :=
  match splitDot1 target with
  | none => false
  | some (c, tr) =>
    match classdictGet classes c with
    | none => true
    | some cls => (traitLookup tr (classTraitsConfig cls)).isNone

/-- A concrete application state used to instantiate theorems: the trait
defaults of the `Application` class with an empty class registry and empty
alias and flag tables, holding one prior config entry. -/
def sampleApp : AppState where
  app_name := "application"
  description := "This is an application."
  flag_description := "flag section text"
  alias_description := "alias section text"
  keyvalue_description := "keyvalue section text"
  classes := []
  version := "0.0"
  log_level := 30
  aliases := []
  flags := []
  config := [("a", CVal.atom "1")]
  log := { name := "Application", level := 30, handlerFormats := [] }

/-- A concrete configurable class mirroring the `Application` class
itself: one configurable trait `log_level` of trait type `Enum`. -/
def sampleClass : AppClass where
  name := "Application"
  traits := [("log_level",
    { typeName := "Enum", configurable := true,
      help := "Set the log level (0,10,20,30,40,50)." })]
  helpLines := ["Application options"]

/-- A state whose flag table holds a malformed entry (a 1-element tuple),
violating the construction-time assertions. -/
def badFlagsApp : AppState :=
  { sampleApp with flags := [("debug", [PyVal.pstr "oops"])] }

/-- A state with a well-formed non-empty flag table and alias table, and
with `sampleClass` registered. -/
def richApp : AppState :=
  { sampleApp with
      classes := [sampleClass]
      flags := [("debug", [PyVal.pdict [("Application",
        CVal.table [("log_level", CVal.atom "10")])], PyVal.pstr "enable debug"])]
      aliases := [("log-level", "Application.log_level")] }

/-- A state with `sampleClass` registered and an alias table whose first
entry resolves but whose second entry names an unregistered class. -/
def badAliasApp : AppState :=
  { sampleApp with
      classes := [sampleClass]
      aliases := [("log-level", "Application.log_level"),
                  ("cfile", "Missing.config_file")] }

/-- If some entry of the flag table fails the construction assertions,
`validate_flags` reports an offending entry of the table. -/
theorem validate_flags_error_of_bad (l : List (String × List PyVal))
    (h : ∃ p ∈ l, flagOk p.2 = false) :
    ∃ k v, validate_flags l = .error (k, v) ∧ (k, v) ∈ l ∧ flagOk v = false := by
  induction l with
  | nil => simp at h
  | cons hd tl ih =>
    by_cases hok : flagOk hd.2 = true
    · have htl : ∃ p ∈ tl, flagOk p.2 = false := by
        rcases h with ⟨p, hp, hbad⟩
        rcases List.mem_cons.mp hp with hp | hp
        · rw [hp, hok] at hbad; cases hbad
        · exact ⟨p, hp, hbad⟩
      rcases ih htl with ⟨k, v, hval, hmem, hbad⟩
      refine ⟨k, v, ?_, List.mem_cons_of_mem _ hmem, hbad⟩
      show validate_flags (hd :: tl) = .error (k, v)
      rw [show hd = (hd.1, hd.2) from rfl]
      simp [validate_flags, hok, hval]
    · refine ⟨hd.1, hd.2, ?_, by simp, by simpa using hok⟩
      rw [show hd = (hd.1, hd.2) from rfl]
      simp [validate_flags, Bool.eq_false_iff.mpr hok]

/-- If every entry of the flag table passes the construction assertions,
`validate_flags` succeeds. -/
theorem validate_flags_ok (l : List (String × List PyVal))
    (h : ∀ p ∈ l, flagOk p.2 = true) : validate_flags l = .ok () := by
  induction l with
  | nil => rfl
  | cons hd tl ih =>
    rw [show hd = (hd.1, hd.2) from rfl]
    simp [validate_flags, h hd (by simp)]
    exact ih fun p hp => h p (List.mem_cons_of_mem _ hp)

/-- Claim C1: after `update_config cfg` the stored config is exactly the
incoming object `cfg` (direct reassignment); the deep-copied-and-merged
configuration is discarded, and the stored config is in general not the
merge of the prior config with `cfg` (witnessed by a state whose prior
config holds a key absent from `cfg`). -/
theorem claim1_update_config_replaces_not_merges :
    (∀ (st : AppState) (cfg : Config), (update_config st cfg).config = cfg) ∧
    (∃ (st : AppState) (cfg : Config),
      (update_config st cfg).config ≠ mergeTables st.config cfg) := by
  constructor
  · intro st cfg
    rfl
  · exact ⟨sampleApp, [], by simp [update_config, mergeTables, sampleApp]⟩

/-- Claim C3: constructing the Application with a flags table containing an
entry whose value is not a 2-element pair, or whose first element is not a
mapping/configuration object, or whose second element is not a string,
raises an assertion error identifying an offending key and value of the
table; construction succeeds past this validation whenever every entry is
such a pair. -/
theorem claim3_construction_flag_validation :
    (∀ (cls : AppClass) (st0 : AppState),
        (∃ p ∈ st0.flags, flagOk p.2 = false) →
        ∃ k v, app_init cls st0 = .error (k, v) ∧ (k, v) ∈ st0.flags ∧ flagOk v = false) ∧
    (∀ (cls : AppClass) (st0 : AppState),
        (∀ p ∈ st0.flags, flagOk p.2 = true) →
        app_init cls st0 =
          .ok (init_logging { st0 with classes := cls :: st0.classes } cls.name)) := by
  constructor
  · intro cls st0 h
    rcases validate_flags_error_of_bad st0.flags h with ⟨k, v, hval, hmem, hbad⟩
    refine ⟨k, v, ?_, hmem, hbad⟩
    unfold app_init
    rw [hval]
  · intro cls st0 h
    unfold app_init
    rw [validate_flags_ok st0.flags h]

/-- Witness for claim C3 at concrete inputs: a malformed 1-tuple flag value
aborts construction, and a well-formed flag table passes validation. -/
theorem claim3_witness :
    (∃ k v, app_init sampleClass badFlagsApp = .error (k, v) ∧
        (k, v) ∈ badFlagsApp.flags ∧ flagOk v = false) ∧
    app_init sampleClass richApp =
      .ok (init_logging { richApp with classes := sampleClass :: richApp.classes }
            sampleClass.name) :=
  ⟨claim3_construction_flag_validation.1 sampleClass badFlagsApp (by decide),
   claim3_construction_flag_validation.2 sampleClass richApp (by decide)⟩

/-- Claim C5: whenever construction succeeds, the head of the classes
sequence is the constructed instance's own class (inserted at position 0
by the constructor). -/
theorem claim5_classes_head (cls : AppClass) (st0 st : AppState)
    (h : app_init cls st0 = .ok st) : st.classes.head? = some cls := by
  unfold app_init at h
  split at h
  · cases h
  · injection h with h
    rw [← h]
    rfl

/-- Witness for claim C5: constructing over `sampleApp` yields a state
whose classes sequence starts with the constructing class. -/
theorem claim5_witness :
    (init_logging { sampleApp with classes := [sampleClass] } "Application").classes.head?
      = some sampleClass :=
  claim5_classes_head sampleClass sampleApp _ rfl

/-- Claim C6: setting `log_level` to any value in 0,10,20,30,40,50 after
construction succeeds and updates the application's logger's level to
exactly that value (live binding through the `_log_level_changed`
notification). -/
theorem claim6_log_level_live_binding (st : AppState) (v : Nat)
    (hv : v = 0 ∨ v = 10 ∨ v = 20 ∨ v = 30 ∨ v = 40 ∨ v = 50) :
    ∃ st', set_log_level st v = .ok st' ∧ st'.log.level = v ∧ st'.log_level = v := by
  refine ⟨log_level_changed { st with log_level := v } v, ?_, rfl, rfl⟩
  unfold set_log_level
  rw [if_pos hv]

/-- Witness for claim C6: setting `log_level` to 10 on `sampleApp` drives
the logger's level to 10. -/
theorem claim6_witness :
    ∃ st', set_log_level sampleApp 10 = .ok st' ∧ st'.log.level = 10 ∧ st'.log_level = 10 :=
  claim6_log_level_live_binding sampleApp 10 (by decide)

/-- Claim C2: with `-h` or `--help` anywhere in the argument list,
`parse_command_line` prints the description followed by the full help and
exits with status 1; on the empty argument list, with a key-value loader
supplying a config, it returns normally. -/
theorem claim2_parse_command_line_help :
    (∀ (st : AppState) (loader : List String → Config) (argv out : List String),
        ("-h" ∈ argv ∨ "--help" ∈ argv) → print_help st = .ok out →
        parse_command_line st loader argv =
          .ok (.exited 1 (print_description st ++ out) st)) ∧
    (∀ (st : AppState) (loader : List String → Config),
        parse_command_line st loader [] =
          .ok (.finished (update_config st (loader [])))) := by
  constructor
  · intro st loader argv out hmem hhelp
    unfold parse_command_line
    rw [if_pos hmem, hhelp]
  · intro st loader
    rfl

/-- Witness for claim C2: `-h` on `sampleApp` prints the description and
the (empty-table) help and exits with status 1, while the empty argument
list returns normally with the loader's config merged in. -/
theorem claim2_witness :
    parse_command_line sampleApp (fun _ => []) ["-h"] =
      .ok (.exited 1 ["This is an application.", ""] sampleApp) ∧
    parse_command_line sampleApp (fun _ => []) [] =
      .ok (.finished (update_config sampleApp [])) :=
  ⟨claim2_parse_command_line_help.1 sampleApp (fun _ => []) ["-h"] []
      (Or.inl (by decide)) rfl,
   claim2_parse_command_line_help.2 sampleApp (fun _ => [])⟩

/-- Claim C4: with `--version` in the argument list and neither `-h` nor
`--help` present, `parse_command_line` prints exactly the version string
and exits with status 1. -/
theorem claim4_parse_command_line_version (st : AppState)
    (loader : List String → Config) (argv : List String)
    (hv : "--version" ∈ argv) (h1 : "-h" ∉ argv) (h2 : "--help" ∉ argv) :
    parse_command_line st loader argv = .ok (.exited 1 [st.version] st) := by
  unfold parse_command_line
  rw [if_neg (by rintro (h | h); exacts [h1 h, h2 h]), if_pos hv]
  rfl

/-- Witness for claim C4 at the concrete argument list `["--version"]`. -/
theorem claim4_witness :
    parse_command_line sampleApp (fun _ => []) ["--version"] =
      .ok (.exited 1 ["0.0"] sampleApp) :=
  claim4_parse_command_line_version sampleApp (fun _ => []) ["--version"]
    (by decide) (by decide) (by decide)

/-- Claim C9: when a help token and `--version` are both present, the help
scan wins: the result is exactly the help path's result, and it is never
the version-printing outcome. -/
theorem claim9_help_precedes_version (st : AppState)
    (loader : List String → Config) (argv : List String)
    (hh : "-h" ∈ argv ∨ "--help" ∈ argv) (hv : "--version" ∈ argv) :
    parse_command_line st loader argv =
      Except.map (fun h => ParseResult.exited 1 (print_description st ++ h) st)
        (print_help st) ∧
    parse_command_line st loader argv ≠
      Except.ok (ParseResult.exited 1 (print_version st) st) := by
  constructor
  · unfold parse_command_line
    rw [if_pos hh]
    cases hph : print_help st <;> rfl
  · unfold parse_command_line
    rw [if_pos hh]
    cases hph : print_help st with
    | error e => intro hc; cases hc
    | ok hl =>
      intro hc
      injection hc with hc
      injection hc with h1 h2 h3
      simp [print_description, print_version] at h2

/-- Witness for claim C9 at the concrete argument list
`["--help", "--version"]` over `sampleApp`. -/
theorem claim9_witness :
    (parse_command_line sampleApp (fun _ => []) ["--help", "--version"] =
      Except.map
        (fun h => ParseResult.exited 1 (print_description sampleApp ++ h) sampleApp)
        (print_help sampleApp)) ∧
    parse_command_line sampleApp (fun _ => []) ["--help", "--version"] ≠
      Except.ok (ParseResult.exited 1 (print_version sampleApp) sampleApp) :=
  claim9_help_precedes_version sampleApp (fun _ => []) ["--help", "--version"]
    (Or.inr (by decide)) (by decide)

/-- Claim C10: whenever `-h`, `--help` or `--version` occurs in the
argument list, `parse_command_line` never reaches the key-value loader or
`update_config`: its result does not depend on the loader, any exit
carries the unchanged state (and hence unchanged config), and it never
returns normally. -/
theorem claim10_special_tokens_frame (st : AppState)
    (loader : List String → Config) (argv : List String)
    (h : "-h" ∈ argv ∨ "--help" ∈ argv ∨ "--version" ∈ argv) :
    (∀ loader2 : List String → Config,
        parse_command_line st loader2 argv = parse_command_line st loader argv) ∧
    (∀ (n : Nat) (out : List String) (st' : AppState),
        parse_command_line st loader argv = .ok (.exited n out st') →
        st' = st ∧ st'.config = st.config) ∧
    (∀ st' : AppState,
        parse_command_line st loader argv ≠ .ok (.finished st')) := by
  by_cases hh : "-h" ∈ argv ∨ "--help" ∈ argv
  · refine ⟨?_, ?_, ?_⟩
    · intro loader2
      simp [parse_command_line, hh]
    · intro n out st' hp
      unfold parse_command_line at hp
      rw [if_pos hh] at hp
      cases hph : print_help st with
      | error e => rw [hph] at hp; cases hp
      | ok hl =>
        rw [hph] at hp
        injection hp with hp
        injection hp with h1 h2 h3
        exact ⟨h3.symm, by rw [h3]⟩
    · intro st' hne
      unfold parse_command_line at hne
      rw [if_pos hh] at hne
      cases hph : print_help st with
      | error e => rw [hph] at hne; cases hne
      | ok hl => rw [hph] at hne; injection hne with hne; injection hne
  · have hv : "--version" ∈ argv := by
      rcases h with h | h | h
      · exact absurd (Or.inl h) hh
      · exact absurd (Or.inr h) hh
      · exact h
    refine ⟨?_, ?_, ?_⟩
    · intro loader2
      simp [parse_command_line, hh, hv]
    · intro n out st' hp
      unfold parse_command_line at hp
      rw [if_neg hh, if_pos hv] at hp
      injection hp with hp
      injection hp with h1 h2 h3
      exact ⟨h3.symm, by rw [h3]⟩
    · intro st' hne
      unfold parse_command_line at hne
      rw [if_neg hh, if_pos hv] at hne
      injection hne with hne
      injection hne

/-- Witness for claim C10 at the concrete argument list `["--version"]`:
the result does not depend on the loader, and the exit carries the
unchanged state. -/
theorem claim10_witness :
    parse_command_line sampleApp (fun _ => [("b", CVal.atom "2")]) ["--version"] =
      parse_command_line sampleApp (fun _ => []) ["--version"] ∧
    (sampleApp = sampleApp ∧ sampleApp.config = sampleApp.config) ∧
    parse_command_line sampleApp (fun _ => []) ["--version"] ≠
      .ok (.finished sampleApp) := by
  have h := claim10_special_tokens_frame sampleApp (fun _ => []) ["--version"]
    (Or.inr (Or.inr (by decide)))
  exact ⟨h.1 _, h.2.1 1 (print_version sampleApp) sampleApp rfl, h.2.2 sampleApp⟩

/-- The alias loop body either fails with a KeyError (when the target's
class is not registered or its trait is not configurable there) or
succeeds printing a line that starts with the alias name. -/
theorem alias_entry_lines_cases (classes : List AppClass) (a t : String)
    (hdot : (splitDot1 t).isSome = true) :
    (aliasTargetBad classes t = true →
      ∃ k, alias_entry_lines classes a t = .error (.keyError k)) ∧
    (aliasTargetBad classes t = false →
      ∃ ty rest, alias_entry_lines classes a t =
        .ok ((a ++ " (" ++ t ++ ") : " ++ ty) :: rest)) := by
  rcases hsp : splitDot1 t with _ | ⟨c, tr⟩
  · rw [hsp] at hdot; cases hdot
  · cases hcd : classdictGet classes c with
    | none =>
      constructor
      · intro _
        exact ⟨c, by simp [alias_entry_lines, hsp, hcd]⟩
      · intro hf
        have : aliasTargetBad classes t = true := by simp [aliasTargetBad, hsp, hcd]
        rw [this] at hf; cases hf
    | some cls =>
      cases htr : traitLookup tr (classTraitsConfig cls) with
      | none =>
        constructor
        · intro _
          exact ⟨tr, by simp [alias_entry_lines, hsp, hcd, htr]⟩
        · intro hf
          have : aliasTargetBad classes t = true := by
            simp [aliasTargetBad, hsp, hcd, htr]
          rw [this] at hf; cases hf
      | some trait =>
        constructor
        · intro htrue
          have : aliasTargetBad classes t = false := by
            simp [aliasTargetBad, hsp, hcd, htr]
          rw [this] at htrue; cases htrue
        · intro _
          refine ⟨trait.typeName, if trait.help = "" then [] else [indent trait.help], ?_⟩
          simp [alias_entry_lines, hsp, hcd, htr]

/-- If every alias target is dotted and some alias entry fails to resolve,
the alias loop raises a KeyError. -/
theorem aliasEntriesLines_error_of_bad (classes : List AppClass)
    (l : List (String × String))
    (hdot : ∀ p ∈ l, (splitDot1 p.2).isSome = true)
    (hbad : ∃ p ∈ l, aliasTargetBad classes p.2 = true) :
    ∃ k, aliasEntriesLines classes l = .error (.keyError k) := by
  induction l with
  | nil => simp at hbad
  | cons hd tl ih =>
    have hdhd : (splitDot1 hd.2).isSome = true := hdot hd (by simp)
    by_cases hb : aliasTargetBad classes hd.2 = true
    · rcases (alias_entry_lines_cases classes hd.1 hd.2 hdhd).1 hb with ⟨k, hk⟩
      refine ⟨k, ?_⟩
      rw [show hd = (hd.1, hd.2) from rfl]
      simp only [aliasEntriesLines, hk]
      rfl
    · have hbf : aliasTargetBad classes hd.2 = false := by
        cases hcase : aliasTargetBad classes hd.2
        · rfl
        · exact absurd hcase hb
      rcases (alias_entry_lines_cases classes hd.1 hd.2 hdhd).2 hbf with ⟨ty, rest, hok⟩
      have htl : ∃ p ∈ tl, aliasTargetBad classes p.2 = true := by
        rcases hbad with ⟨p, hp, hpb⟩
        rcases List.mem_cons.mp hp with hp | hp
        · rw [hp] at hpb; exact absurd hpb hb
        · exact ⟨p, hp, hpb⟩
      rcases ih (fun p hp => hdot p (List.mem_cons_of_mem _ hp)) htl with ⟨k, hk⟩
      refine ⟨k, ?_⟩
      rw [show hd = (hd.1, hd.2) from rfl]
      simp only [aliasEntriesLines, hok, hk]
      rfl

/-- If every alias target is dotted and resolves, the alias loop succeeds
and its output holds, for each alias, a line starting with the alias
name, in table order. -/
theorem aliasEntriesLines_ok (classes : List AppClass)
    (l : List (String × String))
    (hdot : ∀ p ∈ l, (splitDot1 p.2).isSome = true)
    (hgood : ∀ p ∈ l, aliasTargetBad classes p.2 = false) :
    ∃ ls, aliasEntriesLines classes l = .ok ls ∧
      ∀ p ∈ l, ∃ suffix, (p.1 ++ suffix) ∈ ls := by
  induction l with
  | nil => exact ⟨[], rfl, by simp⟩
  | cons hd tl ih =>
    rcases (alias_entry_lines_cases classes hd.1 hd.2 (hdot hd (by simp))).2
      (hgood hd (by simp)) with ⟨ty, rest, hok⟩
    rcases ih (fun p hp => hdot p (List.mem_cons_of_mem _ hp))
      (fun p hp => hgood p (List.mem_cons_of_mem _ hp)) with ⟨ls, hls, hcont⟩
    refine ⟨(hd.1 ++ " (" ++ hd.2 ++ ") : " ++ ty) :: (rest ++ ls), ?_, ?_⟩
    · rw [show hd = (hd.1, hd.2) from rfl]
      simp only [aliasEntriesLines, hok, hls]
      rfl
    · intro p hp
      rcases List.mem_cons.mp hp with hp | hp
      · refine ⟨" (" ++ hd.2 ++ ") : " ++ ty, ?_⟩
        rw [hp]
        simp [String.append_assoc]
      · rcases hcont p hp with ⟨suf, hsuf⟩
        exact ⟨suf, by simp [hsuf]⟩

/-- Claim C7: an alias whose dotted target names an unregistered class, or
a trait that is not configurable on the looked-up class, makes
`print_alias_help` fail with a lookup error at help-print time; and no
alias validation happens at construction time -- the construction outcome
is unchanged by replacing the alias table. -/
theorem claim7_alias_resolution (st : AppState)
    (hdot : ∀ p ∈ st.aliases, (splitDot1 p.2).isSome = true)
    (hbad : ∃ p ∈ st.aliases, aliasTargetBad st.classes p.2 = true) :
    (∃ k, print_alias_help st = .error (.keyError k)) ∧
    ∀ (cls : AppClass) (st0 : AppState) (al : List (String × String)),
      (app_init cls { st0 with aliases := al }).toOption.isSome =
        (app_init cls st0).toOption.isSome := by
  constructor
  · rcases aliasEntriesLines_error_of_bad st.classes st.aliases hdot hbad with ⟨k, hk⟩
    refine ⟨k, ?_⟩
    have hne : st.aliases.isEmpty = false := by
      rcases hbad with ⟨p, hp, _⟩
      cases hal : st.aliases with
      | nil => rw [hal] at hp; cases hp
      | cons x xs => simp
    unfold print_alias_help
    rw [hne]
    simp [hk]
    rfl
  · intro cls st0 al
    show (app_init cls { st0 with aliases := al }).toOption.isSome = _
    unfold app_init
    cases validate_flags st0.flags <;> rfl

/-- Witness for claim C7: on `badAliasApp` the second alias names the
unregistered class `Missing`, so help-printing raises a KeyError, while
construction with a nonsense alias table succeeds just the same. -/
theorem claim7_witness :
    (∃ k, print_alias_help badAliasApp = .error (.keyError k)) ∧
    (app_init sampleClass { sampleApp with aliases := [("broken", "nodot")] }).toOption.isSome =
      (app_init sampleClass sampleApp).toOption.isSome :=
  ⟨(claim7_alias_resolution badAliasApp (by decide) (by decide)).1,
   (claim7_alias_resolution badAliasApp (by decide) (by decide)).2 sampleClass sampleApp
     [("broken", "nodot")]⟩

/-- For any entry of the flag table, the rendered lines contain the line
`--<name>`. -/
theorem flag_name_mem_flatMap (l : List (String × List PyVal))
    (p : String × List PyVal) (hp : p ∈ l) :
    ("--" ++ p.1) ∈ l.flatMap flagPairLines := by
  refine List.mem_flatMap.mpr ⟨p, hp, ?_⟩
  simp [flagPairLines]

/-- A flag value passing the construction assertions is exactly a pair of
a mapping and a string. -/
theorem flagOk_shape (v : List PyVal) (h : flagOk v = true) :
    ∃ c s, v = [PyVal.pdict c, PyVal.pstr s] := by
  rcases v with _ | ⟨v0, vrest⟩
  · exact absurd h (by simp [flagOk])
  · rcases vrest with _ | ⟨v1, vrest2⟩
    · exact absurd h (by simp [flagOk])
    · rcases vrest2 with _ | ⟨v2, vrest3⟩
      · rw [show flagOk [v0, v1] = (isMapping v0 && isStr v1) from rfl] at h
        simp only [Bool.and_eq_true] at h
        rcases h with ⟨h0, h1⟩
        rcases v0 with c | s0 | n0
        · rcases v1 with c1 | s1 | n1
          · exact absurd h1 (by simp [isStr])
          · exact ⟨c, s1, rfl⟩
          · exact absurd h1 (by simp [isStr])
        · exact absurd h0 (by simp [isMapping])
        · exact absurd h0 (by simp [isMapping])
      · exact absurd h (by simp [flagOk])

/-- On a flag table whose entries all pass the construction assertions,
the flag loop renders each entry's lines in table order. -/
theorem flagLinesAux_ok (l : List (String × List PyVal))
    (h : ∀ p ∈ l, flagOk p.2 = true) :
    flagLinesAux l = .ok (l.flatMap flagPairLines) := by
  induction l with
  | nil => rfl
  | cons hd tl ih =>
    have hh : flagOk hd.2 = true := h hd (by simp)
    have ihtl := ih (fun p hp => h p (List.mem_cons_of_mem _ hp))
    rcases flagOk_shape hd.2 hh with ⟨c, s, hshape⟩
    rw [show hd = (hd.1, hd.2) from rfl, hshape]
    show (do
      let l0 ← flagEntryLines (hd.1, [PyVal.pdict c, PyVal.pstr s])
      let ls ← flagLinesAux tl
      Except.ok (l0 ++ ls)) = _
    rw [ihtl]
    rfl

/-- Claim C8: `print_flag_help` and `print_alias_help` emit nothing on
empty tables; on non-empty tables each emits its header and static
description followed by the per-entry lines in the table's own order, the
flag output containing `--<name>` for every flag and the alias output a
line starting with each alias name. -/
theorem claim8_help_rendering :
    (∀ st : AppState, st.flags = [] → print_flag_help st = .ok []) ∧
    (∀ st : AppState, st.aliases = [] → print_alias_help st = .ok []) ∧
    (∀ st : AppState, st.flags ≠ [] → (∀ p ∈ st.flags, flagOk p.2 = true) →
      print_flag_help st =
        .ok (["Flags", "-----", st.flag_description, ""] ++
          st.flags.flatMap flagPairLines ++ [""]) ∧
      ∀ p ∈ st.flags, ("--" ++ p.1) ∈ st.flags.flatMap flagPairLines) ∧
    (∀ st : AppState, st.aliases ≠ [] →
      (∀ p ∈ st.aliases, (splitDot1 p.2).isSome = true) →
      (∀ p ∈ st.aliases, aliasTargetBad st.classes p.2 = false) →
      ∃ ls, aliasEntriesLines st.classes st.aliases = .ok ls ∧
        print_alias_help st =
          .ok (["Aliases", "-------", st.alias_description, ""] ++ ls ++ [""]) ∧
        ∀ p ∈ st.aliases, ∃ suffix, (p.1 ++ suffix) ∈ ls) := by
  refine ⟨?_, ?_, ?_, ?_⟩
  · intro st h
    unfold print_flag_help
    rw [show st.flags.isEmpty = true by simp [h]]
    rfl
  · intro st h
    unfold print_alias_help
    rw [show st.aliases.isEmpty = true by simp [h]]
    rfl
  · intro st hne hok
    constructor
    · unfold print_flag_help
      rw [show st.flags.isEmpty = false by simpa using hne]
      simp [flagLinesAux_ok st.flags hok]
      rfl
    · intro p hp
      exact flag_name_mem_flatMap st.flags p hp
  · intro st hne hdot hgood
    rcases aliasEntriesLines_ok st.classes st.aliases hdot hgood with ⟨ls, hls, hcont⟩
    refine ⟨ls, hls, ?_, hcont⟩
    unfold print_alias_help
    rw [show st.aliases.isEmpty = false by simpa using hne]
    simp [hls]
    rfl

/-- Witness for claim C8: empty tables on `sampleApp` render nothing;
`richApp`'s flag table renders `--debug` and its alias table renders a
line starting with `log-level`. -/
theorem claim8_witness :
    print_flag_help sampleApp = .ok [] ∧
    print_alias_help sampleApp = .ok [] ∧
    (print_flag_help richApp =
      .ok (["Flags", "-----", richApp.flag_description, ""] ++
        richApp.flags.flatMap flagPairLines ++ [""]) ∧
      ∀ p ∈ richApp.flags, ("--" ++ p.1) ∈ richApp.flags.flatMap flagPairLines) ∧
    (∃ ls, aliasEntriesLines richApp.classes richApp.aliases = .ok ls ∧
      print_alias_help richApp =
        .ok (["Aliases", "-------", richApp.alias_description, ""] ++ ls ++ [""]) ∧
      ∀ p ∈ richApp.aliases, ∃ suffix, (p.1 ++ suffix) ∈ ls) :=
  ⟨claim8_help_rendering.1 sampleApp rfl,
   claim8_help_rendering.2.1 sampleApp rfl,
   claim8_help_rendering.2.2.1 richApp (by simp [richApp]) (by decide),
   claim8_help_rendering.2.2.2 richApp (by simp [richApp]) (by decide) (by decide)⟩
